import Mathlib

/-!
Shallow embedding of the stake-request workflow of brandedtoken.js.

The wrapper methods of src/lib/ContractInteract/BrandedToken.js are embedded
as pure functions returning Except JsError RawTx: an error value models a
thrown TypeError or a rejected promise, and an ok value models the raw
transaction that the method hands to Utils.sendTransaction (the only
submission path), so an error result means no transaction is submitted and
no state is mutated.

The on-chain contract (conversion function, stake-request registry, nonce
tracking, signature verification, hash locks) is not part of the sources;
where a claim depends on it, a definition is modelled from the spec and its
doc comment says so.
-/

/-- Model of the JavaScript values that the wrapper methods receive and test
for falsiness: undefined, null, strings and numbers. -/
inductive JSValue where
  | undef
  | null
  | str (s : String)
  | num (n : Int)
deriving DecidableEq, Repr

/-- JavaScript truthiness of a modelled value: undefined, null, the empty
string and zero are falsy; every other modelled value is truthy. -/
def JSValue.truthy : JSValue → Bool
  | .undef => false
  | .null => false
  | .str s => ! (s == "")
  | .num n => ! (n == 0)

/-- A modelled value that is missing (undefined or null), the empty string,
or the number zero. -/
def JSValue.missingEmptyOrZero : JSValue → Bool
  | .undef => true
  | .null => true
  | .str s => s == ""
  | .num n => n == 0

/-- Lower-case hexadecimal digit. -/
def isLowerHexDigit (c : Char) : Bool :=
  c.isDigit || ('a' ≤ c && c ≤ 'f')

/-- Model of Web3.utils.isAddress restricted to the non-checksummed
lower-case form that web3 accepts unconditionally: a 0x-prefixed string of
40 lower-case hexadecimal digits. Mixed-case checksummed addresses are not
modelled; no claim depends on checksum handling. -/
def isAddress (s : String) : Bool :=
  match s.data with
  | '0' :: 'x' :: rest => rest.length == 40 && rest.all isLowerHexDigit
  | _ => false

/-- Errors surfaced by the wrapper layer. The source only ever constructs
TypeError; the insufficientAllowance variant exists so that statements about
the spec error taxonomy can be written. -/
inductive JsError where
  | typeError (msg : String)
  | insufficientAllowance
deriving DecidableEq, Repr

/-- Raw transactions the wrapper can construct, one constructor per contract
method object built in the source. -/
inductive RawTx where
  | deployTx (valueToken symbol name decimals : String)
      (conversionRate conversionRateDecimals : Int) (organization : String)
  | requestStakeTx (stakeAmount mintAmount : Nat)
  | acceptStakeRequestTx (stakeRequestHash r s v : JSValue)
  | liftRestrictionTx (addresses : List String)
  | rejectStakeRequestTx (stakeRequestHash : JSValue)
deriving DecidableEq, Repr

/-- Transaction options; only the from field is inspected by the source
(the source writes txOptions.from). -/
structure TxOptions where
  fromAddress : String
deriving DecidableEq, Repr

/-- The validation the wrapper applies to transaction options: present, and
the from field a valid address. -/
def validTxOptions : Option TxOptions → Bool
  | none => false
  | some o => isAddress o.fromAddress

/-- Embedding of the static BrandedToken.deployRawTx. The web3 argument is
modelled by whether it passes the instanceof Web3 test; loading the ABI and
bin and the contract.deploy call are opaque and modelled by the deployTx
value. The guards appear in source order. -/
def deployRawTx (web3IsWeb3 : Bool) (valueToken symbol name decimals : String)
    (conversionRate conversionRateDecimals : Int) (organization : String) :
    Except JsError RawTx :=
  if ! web3IsWeb3 then
    .error (.typeError "Mandatory Parameter web3 is missing or invalid")
  else if ! isAddress valueToken then
    .error (.typeError "Invalid valueToken address.")
  else if ! isAddress organization then
    .error (.typeError "Invalid organization address.")
  else if ! decide (conversionRate > 0) then
    .error (.typeError "Invalid conversion rate. It should be greater than zero")
  else if ! decide (conversionRateDecimals < 5) then
    .error (.typeError "Invalid conversion rate decimal. It should be less than 5")
  else
    .ok (.deployTx valueToken symbol name decimals conversionRate
      conversionRateDecimals organization)

/-- Modelled from the spec: the on-chain convertToBrandedTokens, which the
source only reaches through a contract call. Per spec section 3, mintAmount
is stakeAmount * conversionRate / 10 ^ conversionRateDecimals, truncated
toward zero (Nat division). -/
def convertToBrandedTokens (conversionRate conversionRateDecimals stakeAmount : Nat) : Nat :=
  stakeAmount * conversionRate / 10 ^ conversionRateDecimals

/-- Conversion configuration fixed at deployment of a branded token. -/
structure BTState where
  conversionRate : Nat
  conversionRateDecimals : Nat
deriving DecidableEq, Repr

/-- Embedding of requestStakeRawTx: always resolves to the raw requestStake
transaction over the two amounts, in source argument order. -/
def requestStakeRawTx (stakeAmount mintAmount : Nat) : Except JsError RawTx :=
  .ok (.requestStakeTx stakeAmount mintAmount)

/-- Embedding of requestStake. The allowance argument models the staker
allowance state of the external value token; the source never consults it
(its doc comment makes approval a caller obligation), so the definition
does not read it. After the two txOptions guards, the source converts the
stake amount through the contract and submits the raw transaction. -/
def requestStake (st : BTState) (allowance : Nat) (stakeAmount : Nat)
    (txOptions : Option TxOptions) : Except JsError RawTx :=
  match txOptions with
  | none => .error (.typeError "Invalid transaction options.")
  | some o =>
    if ! isAddress o.fromAddress then
      .error (.typeError "Invalid from address in transaction options.")
    else
      requestStakeRawTx stakeAmount
        (convertToBrandedTokens st.conversionRate st.conversionRateDecimals stakeAmount)

/-- Embedding of acceptStakeRequestRawTx: four falsiness guards in source
order, then the raw transaction over exactly the four arguments. -/
def acceptStakeRequestRawTx (stakeRequestHash r s v : JSValue) : Except JsError RawTx :=
  if ! stakeRequestHash.truthy then
    .error (.typeError "Invalid stakeRequestHash.")
  else if ! r.truthy then
    .error (.typeError "Invalid r of signature.")
  else if ! s.truthy then
    .error (.typeError "Invalid s of signature.")
  else if ! v.truthy then
    .error (.typeError "Invalid v of signature.")
  else
    .ok (.acceptStakeRequestTx stakeRequestHash r s v)

/-- Embedding of acceptStakeRequest: the two txOptions guards, then the raw
transaction path. -/
def acceptStakeRequest (stakeRequestHash r s v : JSValue)
    (txOptions : Option TxOptions) : Except JsError RawTx :=
  match txOptions with
  | none => .error (.typeError "Invalid transaction options.")
  | some o =>
    if ! isAddress o.fromAddress then
      .error (.typeError "Invalid from address in transaction options.")
    else
      acceptStakeRequestRawTx stakeRequestHash r s v

/-- Embedding of liftRestrictionRawTx: rejects when the addresses argument
is missing or the empty list, otherwise resolves to the raw transaction
over that list. -/
def liftRestrictionRawTx (addresses : Option (List String)) : Except JsError RawTx :=
  match addresses with
  | none => .error (.typeError "At least one addresses must be defined")
  | some l =>
    if l.length == 0 then
      .error (.typeError "At least one addresses must be defined")
    else
      .ok (.liftRestrictionTx l)

/-- Embedding of liftRestriction: the two txOptions guards, then the raw
transaction path. -/
def liftRestriction (addresses : Option (List String))
    (txOptions : Option TxOptions) : Except JsError RawTx :=
  match txOptions with
  | none => .error (.typeError "Invalid transaction options.")
  | some o =>
    if ! isAddress o.fromAddress then
      .error (.typeError "Invalid from address in transaction options.")
    else
      liftRestrictionRawTx addresses

/-- Embedding of rejectStakeRequestRawTx: one falsiness guard, then the raw
transaction. -/
def rejectStakeRequestRawTx (stakeRequestHash : JSValue) : Except JsError RawTx :=
  if ! stakeRequestHash.truthy then
    .error (.typeError "Invalid stakeRequestHash.")
  else
    .ok (.rejectStakeRequestTx stakeRequestHash)

/-- Embedding of rejectStakeRequest: the two txOptions guards, then the raw
transaction path. -/
def rejectStakeRequest (stakeRequestHash : JSValue)
    (txOptions : Option TxOptions) : Except JsError RawTx :=
  match txOptions with
  | none => .error (.typeError "Invalid transaction options.")
  | some o =>
    if ! isAddress o.fromAddress then
      .error (.typeError "Invalid from address in transaction options.")
    else
      rejectStakeRequestRawTx stakeRequestHash

/-- Model of a web3 object: whether it passes the instanceof Web3 test. -/
structure Web3Obj where
  isWeb3Instance : Bool
deriving DecidableEq, Repr

/-- Opaque contract binding produced by the Contracts collaborator. -/
structure ContractBinding where
  boundAddress : String
deriving DecidableEq, Repr

/-- A constructed BrandedToken instance: the fields the constructor stores. -/
structure BrandedTokenInstance where
  web3 : Web3Obj
  address : String
  contract : ContractBinding
deriving DecidableEq, Repr

/-- Embedding of the BrandedToken constructor. Contracts.getBrandedToken is
an external collaborator, passed as a function whose none result models a
falsy contract value. -/
def brandedTokenConstructor (web3 : Web3Obj) (address : String)
    (getBrandedToken : Web3Obj → String → Option ContractBinding) :
    Except JsError BrandedTokenInstance :=
  if ! web3.isWeb3Instance then
    .error (.typeError "Mandatory Parameter web3 is missing or invalid")
  else if ! isAddress address then
    .error (.typeError "Mandatory Parameter address is missing or invalid")
  else
    match getBrandedToken web3 address with
    | none => .error (.typeError "Could not load branded token contract")
    | some c => .ok (BrandedTokenInstance.mk web3 address c)

/-- Sample valid lower-case addresses used by concrete witnesses. -/
def addrA : String := "0xaaaaaaaaaaaaaaaaaaaaaaaaaaaaaaaaaaaaaaaa"

/-- A second sample valid address. -/
def addrB : String := "0xbbbbbbbbbbbbbbbbbbbbbbbbbbbbbbbbbbbbbbbb"

/-- The conversion configuration of the worked scenario of the spec and of
the repository test: rate 1000 at 5 decimal places. -/
def scenarioBT : BTState := { conversionRate := 1000, conversionRateDecimals := 5 }

/-- Modelled from the spec: a stake request record (spec section 3). The
downstream transfer parameters are carried opaquely as the beneficiary
field; the gateway and gas parameters do not affect any claim settled
here beyond being part of the hashed payload, which the beneficiary field
already witnesses. -/
structure StakeRequest where
  staker : String
  stakeAmount : Nat
  mintAmount : Nat
  nonce : Nat
  beneficiary : String
deriving DecidableEq, Repr

/-- Modelled from the spec: RequestHasher (spec section 4.1), a
deterministic structured hash, modelled as tagged field concatenation with
a domain separator. -/
def requestHasher (domain : String) (req : StakeRequest) : String :=
  domain ++ "|" ++ req.staker ++ "|" ++ toString req.stakeAmount ++ "|" ++
    toString req.mintAmount ++ "|" ++ toString req.nonce ++ "|" ++ req.beneficiary

/-- Error kinds of the spec error taxonomy (spec section 7). -/
inductive RegistryError where
  | validationError
  | invalidNonce
  | duplicateRequest
  | requestNotFound
  | unauthorizedSigner
  | malformedSignature
deriving DecidableEq, Repr

/-- Modelled from the spec: the durable state of StakeRequestRegistry (spec
sections 3, 4.2 and 4.5): the staker to request hash mapping, the request
hash to record mapping, and the last consumed nonce per staker, together
with the domain separator of the deployed instance. -/
structure Registry where
  domain : String
  stakerToHash : List (String × String)
  hashToRequest : List (String × StakeRequest)
  lastNonce : List (String × Nat)
deriving DecidableEq, Repr

/-- Lookup of the open request hash for a staker; none models null. -/
def Registry.lookupStakerHash (reg : Registry) (staker : String) : Option String :=
  reg.stakerToHash.lookup staker

/-- Lookup of the stored record for a request hash; none models the
empty or zeroed record. -/
def Registry.lookupRequest (reg : Registry) (h : String) : Option StakeRequest :=
  reg.hashToRequest.lookup h

/-- Modelled from the spec: NonceTracker.next (spec section 4.2): one more
than the last consumed nonce for the staker, starting at one. -/
def Registry.nextNonce (reg : Registry) (staker : String) : Nat :=
  (match reg.lastNonce.lookup staker with
   | none => 0
   | some n => n) + 1

/-- Modelled from the spec: create (spec section 4.5): requires an empty
slot for the staker (else DuplicateRequest), the exact next nonce (else
InvalidNonce) and a nonzero stake amount; stores both mappings and consumes
the nonce. -/
def Registry.create (reg : Registry) (req : StakeRequest) :
    Except RegistryError (Registry × String) :=
  match reg.lookupStakerHash req.staker with
  | some _ => .error .duplicateRequest
  | none =>
    if req.nonce ≠ reg.nextNonce req.staker then
      .error .invalidNonce
    else if req.stakeAmount == 0 then
      .error .validationError
    else
      let h := requestHasher reg.domain req
      .ok ({ reg with
              stakerToHash := (req.staker, h) :: reg.stakerToHash,
              hashToRequest := (h, req) :: reg.hashToRequest,
              lastNonce := (req.staker, req.nonce) :: reg.lastNonce }, h)

/-- Modelled from the spec: a hash-lock commitment (spec section 4.4); the
acceptance step carries its lock component. -/
structure HashLock where
  lock : String
deriving DecidableEq, Repr

/-- Well-formedness of a lock component: a 0x-prefixed 32-byte digest,
64 lower-case hexadecimal digits. -/
def lockWellFormed (lock : String) : Bool :=
  match lock.data with
  | '0' :: 'x' :: rest => rest.length == 64 && rest.all isLowerHexDigit
  | _ => false

/-- Modelled from the spec: a worker signature as its r, s, v components
(spec section 4.3). -/
structure WorkerSignature where
  r : String
  s : String
  v : Nat
deriving DecidableEq, Repr

/-- Removal of a staker key and of a hash key from both registry mappings
in one step: the atomic clear of spec section 3. -/
def Registry.clear (reg : Registry) (staker h : String) : Registry :=
  { reg with
    stakerToHash := reg.stakerToHash.filter (fun p => ! (p.1 == staker)),
    hashToRequest := reg.hashToRequest.filter (fun p => ! (p.1 == h)) }

/-- Modelled from the spec: accept(requestHash, signature, hashLock) (spec
section 4.5): requires a well-formed lock component, an open request stored
under the hash, and a signature that recovers to an authorized signer; on
success clears both mappings atomically. Signature recovery is the external
recoverable-signature scheme, passed as a function from digest and
signature to the recovered identity, none when recovery fails. -/
def Registry.accept (reg : Registry)
    (recover : String → WorkerSignature → Option String)
    (authorizedSigners : List String)
    (requestHash : String) (signature : WorkerSignature) (hashLock : HashLock) :
    Except RegistryError Registry :=
  if ! lockWellFormed hashLock.lock then
    .error .validationError
  else
    match reg.lookupRequest requestHash with
    | none => .error .requestNotFound
    | some req =>
      match recover requestHash signature with
      | none => .error .malformedSignature
      | some signer =>
        if authorizedSigners.contains signer then
          .ok (reg.clear req.staker requestHash)
        else
          .error .unauthorizedSigner

/-- The stake request of the worked scenario: stake 200 converting to 2. -/
def sampleRequest : StakeRequest :=
  { staker := addrA, stakeAmount := 200, mintAmount := 2, nonce := 1,
    beneficiary := addrB }

/-- The hash of the sample request in the sample domain. -/
def sampleHash : String := requestHasher "bt" sampleRequest

/-- A registry holding exactly the sample request as an open request. -/
def sampleRegistry : Registry :=
  { domain := "bt", stakerToHash := [(addrA, sampleHash)],
    hashToRequest := [(sampleHash, sampleRequest)], lastNonce := [(addrA, 1)] }

/-- A well-formed sample lock component. -/
def sampleLock : String := "0x" ++ String.mk (List.replicate 64 'a')

/-- A sample worker identity. -/
def workerA : String := "worker-a"

/-- A sample recovery scheme under which every signature recovers to the
sample worker. -/
def sampleRecover : String → WorkerSignature → Option String :=
  fun _ _ => some workerA

/-- A sample signature. -/
def sampleSig : WorkerSignature := { r := "r1", s := "s1", v := 28 }

/-- Truthiness of a modelled value is the negation of it being missing,
empty or zero. -/
theorem JSValue.truthy_eq_not_missingEmptyOrZero (x : JSValue) :
    x.truthy = ! x.missingEmptyOrZero := by
  cases x <;> rfl

/-- Looking up a key in an association list from which every pair with that
key has been filtered out yields none. -/
theorem lookup_filter_ne_self {β : Type} (k : String) (l : List (String × β)) :
    (l.filter (fun p => ! (p.1 == k))).lookup k = none := by
  induction l with
  | nil => rfl
  | cons hd tl ih =>
    obtain ⟨a, b⟩ := hd
    rw [List.filter_cons]
    by_cases hk : a = k
    · subst hk
      simp [ih]
    · have hk2 : (k == a) = false := beq_eq_false_iff_ne.mpr (Ne.symm hk)
      have hk1 : (((a, b).1 == k) : Bool) = false := beq_eq_false_iff_ne.mpr hk
      simp only [hk1, Bool.not_false, if_true, List.lookup, hk2, ih]

/-- Claim C1: the worked scenario configuration, conversion rate 1000 at 5
decimal places, is rejected by deployRawTx, which requires
conversionRateDecimals strictly less than five, although its own doc
comment requires only not greater than five; the conversion itself yields
200 * 1000 / 10 ^ 5 = 2 as the claim states. -/
theorem deployRawTx_rejects_scenario_decimals :
    deployRawTx true addrA "BT" "MyBrandedToken" "18" 1000 5 addrB =
      .error (.typeError "Invalid conversion rate decimal. It should be less than 5") ∧
    convertToBrandedTokens 1000 5 200 = 2 :=
  ⟨rfl, rfl⟩

/-- Claim C2 counterexample: with a zero allowance and valid transaction
options, requestStake submits the stake transaction instead of failing
with an insufficient-allowance error. -/
theorem requestStake_zero_allowance_still_submits :
    requestStake scenarioBT 0 200 (some (TxOptions.mk addrA)) =
      .ok (.requestStakeTx 200 2) :=
  rfl

/-- Claim C2 (amended): requestStake performs no allowance check at all:
its result does not depend on the allowance state and is never an
insufficient-allowance error; approval is a documented caller obligation. -/
theorem requestStake_ignores_allowance (st : BTState) (allowance stakeAmount : Nat)
    (txOptions : Option TxOptions) :
    requestStake st allowance stakeAmount txOptions =
      requestStake st 0 stakeAmount txOptions ∧
    requestStake st allowance stakeAmount txOptions ≠ .error .insufficientAllowance := by
  refine ⟨rfl, ?_⟩
  cases txOptions with
  | none => simp [requestStake]
  | some o =>
    by_cases hf : isAddress o.fromAddress
    · simp [requestStake, hf, requestStakeRawTx]
    · simp [requestStake, hf]

/-- Witness for the amended claim C2 at a concrete allowance. -/
theorem requestStake_ignores_allowance_witness :
    requestStake scenarioBT 5 200 none = requestStake scenarioBT 0 200 none ∧
    requestStake scenarioBT 5 200 none ≠ .error .insufficientAllowance :=
  requestStake_ignores_allowance scenarioBT 5 200 none

/-- Claim C4: for every stake amount and transaction options with a valid
from address, requestStake submits the raw requestStake transaction over
exactly the stake amount and the converted mint amount, in that order. -/
theorem requestStake_submits_converted_pair (st : BTState)
    (allowance stakeAmount : Nat) (o : TxOptions)
    (hfrom : isAddress o.fromAddress = true) :
    requestStake st allowance stakeAmount (some o) =
      .ok (.requestStakeTx stakeAmount
        (convertToBrandedTokens st.conversionRate st.conversionRateDecimals stakeAmount)) := by
  simp [requestStake, hfrom, requestStakeRawTx]

/-- Witness for claim C4 at the worked scenario input. -/
theorem requestStake_submits_converted_pair_witness :
    isAddress addrA = true ∧
    requestStake scenarioBT 0 200 (some (TxOptions.mk addrA)) =
      .ok (.requestStakeTx 200 (convertToBrandedTokens 1000 5 200)) :=
  ⟨rfl, requestStake_submits_converted_pair scenarioBT 0 200 (TxOptions.mk addrA) rfl⟩

/-- Claim C5: with missing transaction options or an invalid from address,
each of requestStake, acceptStakeRequest and rejectStakeRequest fails with
a TypeError; an error result models a rejected promise before any
transaction is submitted, so no state mutation occurs. -/
theorem invalid_txOptions_rejected (txOptions : Option TxOptions)
    (hbad : validTxOptions txOptions = false) :
    (∀ st allowance stakeAmount, ∃ m,
      requestStake st allowance stakeAmount txOptions = .error (.typeError m)) ∧
    (∀ h r s v, ∃ m,
      acceptStakeRequest h r s v txOptions = .error (.typeError m)) ∧
    (∀ h, ∃ m,
      rejectStakeRequest h txOptions = .error (.typeError m)) := by
  cases txOptions with
  | none =>
    exact ⟨fun _ _ _ => ⟨_, rfl⟩, fun _ _ _ _ => ⟨_, rfl⟩, fun _ => ⟨_, rfl⟩⟩
  | some o =>
    have hf : isAddress o.fromAddress = false := hbad
    refine ⟨fun st allowance stakeAmount => ?_, fun h r s v => ?_, fun h => ?_⟩ <;>
      simp [requestStake, acceptStakeRequest, rejectStakeRequest, hf]

/-- Witness for claim C5 with missing transaction options. -/
theorem invalid_txOptions_rejected_witness :
    validTxOptions none = false ∧
    (∃ m, requestStake scenarioBT 0 200 none = .error (.typeError m)) :=
  ⟨rfl, (invalid_txOptions_rejected none rfl).1 scenarioBT 0 200⟩

/-- One of the four acceptStakeRequestRawTx arguments is missing, empty or
zero. -/
def anyAcceptArgInvalid (h r s v : JSValue) : Bool :=
  h.missingEmptyOrZero || r.missingEmptyOrZero ||
    s.missingEmptyOrZero || v.missingEmptyOrZero

/-- Claim C6: acceptStakeRequestRawTx fails with a TypeError exactly when
one of its four arguments is missing, empty or zero, and otherwise resolves
to the raw acceptStakeRequest transaction over exactly those four
arguments. -/
theorem acceptStakeRequestRawTx_error_iff (h r s v : JSValue) :
    ((∃ m, acceptStakeRequestRawTx h r s v = .error (.typeError m)) ↔
      anyAcceptArgInvalid h r s v = true) ∧
    (anyAcceptArgInvalid h r s v = false →
      acceptStakeRequestRawTx h r s v = .ok (.acceptStakeRequestTx h r s v)) := by
  cases hh : h.missingEmptyOrZero <;> cases hr : r.missingEmptyOrZero <;>
    cases hs : s.missingEmptyOrZero <;> cases hv : v.missingEmptyOrZero <;>
    simp [acceptStakeRequestRawTx, anyAcceptArgInvalid,
      JSValue.truthy_eq_not_missingEmptyOrZero, hh, hr, hs, hv]

/-- Witness for claim C6 at four non-falsy arguments. -/
theorem acceptStakeRequestRawTx_error_iff_witness :
    acceptStakeRequestRawTx (.str "0xaa") (.str "r1") (.str "s1") (.num 28) =
      .ok (.acceptStakeRequestTx (.str "0xaa") (.str "r1") (.str "s1") (.num 28)) :=
  (acceptStakeRequestRawTx_error_iff (.str "0xaa") (.str "r1") (.str "s1") (.num 28)).2 rfl

/-- Claim C9: liftRestrictionRawTx fails with a TypeError exactly when the
addresses argument is missing or the empty list, otherwise resolves to the
raw liftRestriction transaction over that list; consequently
liftRestriction with an empty list always fails and never submits. -/
theorem liftRestrictionRawTx_error_iff (addresses : Option (List String)) :
    ((∃ m, liftRestrictionRawTx addresses = .error (.typeError m)) ↔
      (addresses = none ∨ addresses = some [])) ∧
    (∀ l, addresses = some l → l ≠ [] →
      liftRestrictionRawTx addresses = .ok (.liftRestrictionTx l)) ∧
    (∀ txOptions, ∃ m, liftRestriction (some []) txOptions = .error (.typeError m)) := by
  refine ⟨?_, ?_, ?_⟩
  · cases addresses with
    | none => simp [liftRestrictionRawTx]
    | some l =>
      cases l with
      | nil => simp [liftRestrictionRawTx]
      | cons a t => simp [liftRestrictionRawTx]
  · rintro l rfl hne
    cases l with
    | nil => exact absurd rfl hne
    | cons a t => simp [liftRestrictionRawTx]
  · intro txOptions
    cases txOptions with
    | none => exact ⟨_, rfl⟩
    | some o =>
      by_cases hf : isAddress o.fromAddress
      · simp [liftRestriction, hf, liftRestrictionRawTx]
      · simp [liftRestriction, hf]

/-- Witness for claim C9 at a one-element address list. -/
theorem liftRestrictionRawTx_error_iff_witness :
    liftRestrictionRawTx (some [addrA]) = .ok (.liftRestrictionTx [addrA]) :=
  (liftRestrictionRawTx_error_iff (some [addrA])).2.1 [addrA] rfl (List.cons_ne_nil addrA [])

/-- A sample contract collaborator that produces a binding at the given
address. -/
def sampleGetBrandedToken : Web3Obj → String → Option ContractBinding :=
  fun _ a => some (ContractBinding.mk a)

/-- Claim C10: a successfully constructed BrandedToken instance was built
from a genuine Web3 instance, stores a valid address, and stores the
non-null contract binding the collaborator produced for that address. -/
theorem brandedTokenConstructor_invariant (web3 : Web3Obj) (address : String)
    (getBrandedToken : Web3Obj → String → Option ContractBinding)
    (inst : BrandedTokenInstance)
    (hok : brandedTokenConstructor web3 address getBrandedToken = .ok inst) :
    web3.isWeb3Instance = true ∧ isAddress inst.address = true ∧
    inst.web3 = web3 ∧ inst.address = address ∧
    getBrandedToken web3 inst.address = some inst.contract := by
  unfold brandedTokenConstructor at hok
  split at hok
  · exact absurd hok (by simp)
  next hw =>
    split at hok
    · exact absurd hok (by simp)
    next ha =>
      cases hg : getBrandedToken web3 address with
      | none => rw [hg] at hok; simp at hok
      | some c =>
        rw [hg] at hok
        simp only [Except.ok.injEq] at hok
        subst hok
        refine ⟨?_, ?_, rfl, rfl, hg⟩
        · simpa using hw
        · simpa using ha

/-- Witness for claim C10 at a concrete valid construction. -/
theorem brandedTokenConstructor_invariant_witness :
    (Web3Obj.mk true).isWeb3Instance = true ∧
    isAddress (BrandedTokenInstance.mk (Web3Obj.mk true) addrA (ContractBinding.mk addrA)).address = true ∧
    (BrandedTokenInstance.mk (Web3Obj.mk true) addrA (ContractBinding.mk addrA)).web3 = Web3Obj.mk true ∧
    (BrandedTokenInstance.mk (Web3Obj.mk true) addrA (ContractBinding.mk addrA)).address = addrA ∧
    sampleGetBrandedToken (Web3Obj.mk true)
        (BrandedTokenInstance.mk (Web3Obj.mk true) addrA (ContractBinding.mk addrA)).address =
      some (BrandedTokenInstance.mk (Web3Obj.mk true) addrA (ContractBinding.mk addrA)).contract :=
  brandedTokenConstructor_invariant (Web3Obj.mk true) addrA sampleGetBrandedToken
    (BrandedTokenInstance.mk (Web3Obj.mk true) addrA (ContractBinding.mk addrA)) rfl

/-- Claim C3: the modelled accept operation takes the hash-lock commitment
as an argument alongside the request hash and the worker signature, and a
malformed lock component makes it fail with a validation error before any
state change, for every registry state, recovery scheme and signer set. -/
theorem accept_requires_wellformed_lock (reg : Registry)
    (recover : String → WorkerSignature → Option String)
    (authorizedSigners : List String) (requestHash : String)
    (signature : WorkerSignature) (hashLock : HashLock)
    (hbad : lockWellFormed hashLock.lock = false) :
    reg.accept recover authorizedSigners requestHash signature hashLock =
      .error .validationError := by
  simp [Registry.accept, hbad]

/-- Witness for claim C3 at a malformed lock. -/
theorem accept_requires_wellformed_lock_witness :
    lockWellFormed (HashLock.mk "xx").lock = false ∧
    sampleRegistry.accept sampleRecover [workerA] sampleHash sampleSig (HashLock.mk "xx") =
      .error .validationError :=
  ⟨rfl, accept_requires_wellformed_lock sampleRegistry sampleRecover [workerA]
    sampleHash sampleSig (HashLock.mk "xx") rfl⟩

/-- Claim C7: after a successful accept of an open stake request, the
lookup by staker and the lookup by request hash of the resulting registry
both yield none, in one and the same resulting state. -/
theorem accept_clears_both_lookups (reg : Registry)
    (recover : String → WorkerSignature → Option String)
    (authorizedSigners : List String) (requestHash : String)
    (signature : WorkerSignature) (hashLock : HashLock)
    (req : StakeRequest) (cleared : Registry)
    (hreq : reg.lookupRequest requestHash = some req)
    (hok : reg.accept recover authorizedSigners requestHash signature hashLock =
      .ok cleared) :
    cleared.lookupStakerHash req.staker = none ∧
    cleared.lookupRequest requestHash = none := by
  unfold Registry.accept at hok
  split at hok
  · exact absurd hok (by simp)
  · split at hok
    · exact absurd hok (by simp)
    next req' hreq' =>
      rw [hreq] at hreq'
      injection hreq' with hreq2
      subst hreq2
      split at hok
      · exact absurd hok (by simp)
      next signer hsig =>
        split at hok
        · injection hok with hok2
          subst hok2
          exact ⟨lookup_filter_ne_self req.staker reg.stakerToHash,
                 lookup_filter_ne_self requestHash reg.hashToRequest⟩
        · exact absurd hok (by simp)

/-- The sample registry after the sample accept. -/
def sampleCleared : Registry := sampleRegistry.clear addrA sampleHash

/-- Witness for claim C7 at the concrete sample accept. -/
theorem accept_clears_both_lookups_witness :
    sampleCleared.lookupStakerHash sampleRequest.staker = none ∧
    sampleCleared.lookupRequest sampleHash = none :=
  accept_clears_both_lookups sampleRegistry sampleRecover [workerA] sampleHash
    sampleSig (HashLock.mk sampleLock) sampleRequest sampleCleared rfl rfl

/-- Claim C8: while a staker has an open request, a second create for that
staker fails with DuplicateRequest, whatever the new request carries. -/
theorem create_fails_duplicate_when_open (reg : Registry) (req : StakeRequest)
    (openHash : String)
    (hopen : reg.lookupStakerHash req.staker = some openHash) :
    reg.create req = .error .duplicateRequest := by
  unfold Registry.create
  rw [hopen]

/-- Witness for claim C8 at the sample registry. -/
theorem create_fails_duplicate_when_open_witness :
    sampleRegistry.lookupStakerHash sampleRequest.staker = some sampleHash ∧
    sampleRegistry.create sampleRequest = .error .duplicateRequest :=
  ⟨rfl, create_fails_duplicate_when_open sampleRegistry sampleRequest sampleHash rfl⟩
